import Mathlib

/-!
Shallow embedding of the RAG question-answering backend
(`backend/app.py`, `backend/main.py`, `backend/embeddings.py`,
`backend/scripts/create-embeddings.py`) and proofs about it.

The repository contains two near-duplicate `/query` handlers:
`query_chatbot` in `app.py` (Cohere) and `query_route` in `main.py`
(Gemini over HTTP).  Both are embedded.  Remote calls (embedding
provider, vector index, chat model) are modelled by oracle values
describing the outcome of each outbound call; the number of outbound
calls actually made is tracked explicitly.  Embedding vectors are
treated opaquely (the code never computes with their components), so
their components are modelled as integers.
-/

namespace Rag

/-- Python whitespace, as recognised by `str.strip()` / `str.split()`
for the ASCII range used throughout the backend. -/
def pyIsSpace (c : Char) : Bool :=
  c = ' ' || c = '\t' || c = '\n' || c = '\r' || c = '\x0b' || c = '\x0c'

/-- Python `str.strip()`: drop leading and trailing whitespace. -/
def pyStrip (s : String) : String :=
  String.mk (((s.toList.dropWhile pyIsSpace).reverse.dropWhile pyIsSpace).reverse)

/-- Helper for `pyWords`: accumulate the current (reversed) token while
scanning the character list. -/
def pyWordsGo : List Char → List Char → List String
  | [], acc => if acc.isEmpty then [] else [String.mk acc.reverse]
  | c :: cs, acc =>
    if pyIsSpace c then
      if acc.isEmpty then pyWordsGo cs [] else String.mk acc.reverse :: pyWordsGo cs []
    else
      pyWordsGo cs (c :: acc)

/-- Python `str.split()` with no argument: the maximal runs of
non-whitespace characters. -/
def pyWords (s : String) : List String :=
  pyWordsGo s.toList []

/-- Embedding vector.  The backend never inspects components, so they
are modelled as integers. -/
abbrev Vec := List Int

/-- The embedding cache (`embedding_cache` dict); also the contents of
the backing `embedding_cache.json` file.  Keys are looked up
front-to-back, and the code only ever inserts keys that are absent, so
an association list is observationally the Python dict. -/
abbrev Cache := List (String × Vec)

def cacheLookup (c : Cache) (t : String) : Option Vec :=
  List.lookup t c

def cacheInsert (c : Cache) (t : String) (v : Vec) : Cache :=
  (t, v) :: c

/-! ### Qdrant search results and their normalisation

Both variants read `r.payload or {}` and `.get(...)` fields out of each
scored point.  Only the fields the code touches are modelled. -/

/-- The payload of a stored point, each field possibly missing. -/
structure Payload where
  text : Option String
  chapter : Option String
  chunk_index : Option Int
  deriving DecidableEq

/-- A raw scored point returned by Qdrant (`r.payload` may be `None`,
`getattr(r, "score", None)` may be absent). -/
structure RawHit where
  payload : Option Payload
  score : Option Int
  deriving DecidableEq

/-- Outcome of the remote `client.search` call. -/
inductive QdrantResult where
  | error
  | ok (hits : List RawHit)
  deriving DecidableEq

/-- Chunk record produced by `main.py`'s `search_qdrant_by_embedding`:
`text` defaults to `""`, `chapter` and `chunk_index` default to `None`. -/
structure MChunk where
  text : String
  chapter : Option String
  chunk_index : Option Int
  score : Option Int
  deriving DecidableEq

def mkMChunk (r : RawHit) : MChunk :=
  let p := r.payload.getD ⟨none, none, none⟩
  { text := p.text.getD "", chapter := p.chapter, chunk_index := p.chunk_index,
    score := r.score }

/-- `main.py` lines 221–236: on a Qdrant error return `[]`, otherwise
normalise every scored point. -/
def search_qdrant_by_embedding (res : QdrantResult) : List MChunk :=
  match res with
  | .error => []
  | .ok hits => hits.map mkMChunk

/-- Chunk record produced by `app.py`'s `search_qdrant`: `text` defaults
to `""`, `chapter` to `"Unknown"`, `chunk_index` to `0`. -/
structure AChunk where
  text : String
  chapter : String
  chunk_index : Int
  score : Option Int
  deriving DecidableEq

def mkAChunk (r : RawHit) : AChunk :=
  let p := r.payload.getD ⟨none, none, none⟩
  { text := p.text.getD "", chapter := p.chapter.getD "Unknown",
    chunk_index := p.chunk_index.getD 0, score := r.score }

/-! ### app.py (Cohere) variant -/

/-- Outcome of one `co.embed` call. -/
inductive CoEmbed where
  | rateLimited
  | err
  | ok (v : Vec)
  deriving DecidableEq

/-- Outcome of one `co.chat` call. -/
inductive CoChat where
  | rateLimited
  | err
  | ok (text : String)
  deriving DecidableEq

/-- Result of `app.py`'s `get_embedding`: the returned vector, the
in-memory cache, the backing file contents, and how many provider
calls were made. -/
structure EmbedOut where
  emb : Vec
  cache : Cache
  file : Cache
  providerCalls : Nat
  deriving DecidableEq

/-- `app.py` lines 71–92: cache-first; on a cache miss call Cohere once;
on success insert into the cache and rewrite the cache file; on
`TooManyRequestsError` or any other exception return `[]` with no
retry and no cache mutation. -/
def get_embedding (cache file : Cache) (text : String) (o : CoEmbed) : EmbedOut :=
  match cacheLookup cache text with
  | some v => ⟨v, cache, file, 0⟩
  | none =>
    match o with
    | .ok v =>
      let c' := cacheInsert cache text v
      ⟨v, c', c', 1⟩
    | .rateLimited => ⟨[], cache, file, 1⟩
    | .err => ⟨[], cache, file, 1⟩

/-- Result of `app.py`'s `search_qdrant`. -/
structure SearchOut where
  chunks : List AChunk
  cache : Cache
  file : Cache
  embedCalls : Nat
  searchCalls : Nat
  deriving DecidableEq

/-- `app.py` lines 94–120: embed the query (cache-aware); an empty
embedding short-circuits to `[]` without touching Qdrant; a Qdrant
error also yields `[]`; otherwise normalise every hit. -/
def search_qdrant (cache file : Cache) (query : String) (eo : CoEmbed)
    (qr : QdrantResult) : SearchOut :=
  let e := get_embedding cache file query eo
  if e.emb.isEmpty then
    ⟨[], e.cache, e.file, e.providerCalls, 0⟩
  else
    match qr with
    | .error => ⟨[], e.cache, e.file, e.providerCalls, 1⟩
    | .ok hits => ⟨hits.map mkAChunk, e.cache, e.file, e.providerCalls, 1⟩

def appNoContextMsg : String :=
  "I'm sorry, I couldn't find relevant information or the API rate limit was reached."

def appRateLimitMsg : String :=
  "API rate limit reached. Please try again in a few seconds."

def appChatErrMsg : String :=
  "Sorry, there was an issue generating the answer. Please try again."

/-- The numbered-passage context block shared by both variants
(`"Passage i:\n<text>"` joined by blank lines). -/
def contextBlock (contexts : List String) : String :=
  String.intercalate "\n\n"
    (contexts.enum.map (fun p => "Passage " ++ toString (p.1 + 1) ++ ":\n" ++ p.2))

/-- `app.py` lines 122–149: with no context passages return the fixed
message without calling Cohere; otherwise call `co.chat` once and map
rate-limit and generic failures to fixed strings.  Returns the answer
and the number of chat-provider calls made. -/
def generate_answer (contexts : List String) (o : CoChat) : String × Nat :=
  match contexts with
  | [] => (appNoContextMsg, 0)
  | _ :: _ =>
    match o with
    | .ok t => (pyStrip t, 1)
    | .rateLimited => (appRateLimitMsg, 1)
    | .err => (appChatErrMsg, 1)

/-- `POST /query` request body. -/
structure QueryRequest where
  question : String
  selected_text : Option String
  deriving DecidableEq

/-- Truthiness of `req.selected_text and req.selected_text.strip()`. -/
def selTruthy (sel : Option String) : Bool :=
  match sel with
  | none => false
  | some s => !(s = "") && !(pyStrip s = "")

/-- Source record in `app.py` (`chapter` mandatory, `url` set to `""`). -/
structure ASource where
  chapter : String
  «section» : Option String
  url : Option String
  deriving DecidableEq

structure AppResponse where
  answer : String
  sources : List ASource
  deriving DecidableEq

/-- An HTTP error response (`HTTPException` / unhandled exception). -/
structure HErr where
  status : Nat
  detail : String
  deriving DecidableEq

/-- Outbound provider calls made while serving one request. -/
structure Calls where
  embed : Nat
  search : Nat
  chat : Nat
  deriving DecidableEq

/-- Full observable outcome of one `app.py` request:
the HTTP result, the cache and cache-file state afterwards, the
outbound calls made, and the context list handed to the
answer-generation stage (`none` if that stage was never reached). -/
structure AppOut where
  res : Except HErr AppResponse
  cache : Cache
  file : Cache
  calls : Calls
  suppliedContexts : Option (List String)

/-- `app.py` lines 160–187 (`query_chatbot`): validate, search, boost
`selected_text` to the front of the context list, generate, shape
sources. -/
def query_chatbot (cache file : Cache) (req : QueryRequest) (eo : CoEmbed)
    (qr : QdrantResult) (co : CoChat) : AppOut :=
  if pyStrip req.question = "" then
    ⟨.error ⟨400, "Question cannot be empty"⟩, cache, file, ⟨0, 0, 0⟩, none⟩
  else
    let question := pyStrip req.question
    let s := search_qdrant cache file question eo qr
    let contexts0 := s.chunks.map (·.text)
    let contexts :=
      if selTruthy req.selected_text then
        pyStrip ((req.selected_text).getD "") :: contexts0
      else contexts0
    let a := generate_answer contexts co
    let sources := s.chunks.map (fun r =>
      ASource.mk r.chapter (some ("Chunk " ++ toString r.chunk_index)) (some ""))
    ⟨.ok ⟨a.1, sources.take 5⟩, s.cache, s.file,
      ⟨s.embedCalls, s.searchCalls, a.2⟩, some contexts⟩

/-! ### main.py (Gemini over HTTP) variant

`gemini_chat` sniffs several JSON response shapes, so the chat
provider's HTTP response body is modelled as a JSON value.  Numbers are
modelled as integers (the parse chain never computes with them). -/

inductive JVal where
  | jnull
  | jbool (b : Bool)
  | jnum (n : Int)
  | jstr (s : String)
  | jarr (items : List JVal)
  | jobj (fields : List (String × JVal))

/-- Python dict lookup (`k in d` / `d.get(k)`); keys are unique in any
parsed JSON object. -/
def jget (fields : List (String × JVal)) (k : String) : Option JVal :=
  List.lookup k fields

/-- Python truthiness of a JSON value. -/
def jTruthy : JVal → Bool
  | .jnull => false
  | .jbool b => b
  | .jnum n => !(n = 0)
  | .jstr s => !(s = "")
  | .jarr items => !items.isEmpty
  | .jobj fields => !fields.isEmpty

def hexDigit (n : Nat) : Char :=
  if n < 10 then Char.ofNat (48 + n) else Char.ofNat (87 + n)

/-- `json.dumps` escaping of one character (default `ensure_ascii`
behaviour for the basic multilingual plane). -/
def escChar (c : Char) : String :=
  if c = '"' then "\\\""
  else if c = '\\' then "\\\\"
  else if c = '\n' then "\\n"
  else if c = '\t' then "\\t"
  else if c = '\r' then "\\r"
  else if c = '\x08' then "\\b"
  else if c = '\x0c' then "\\f"
  else if c.toNat < 32 || c.toNat > 126 then
    "\\u" ++ String.mk [hexDigit (c.toNat / 4096 % 16), hexDigit (c.toNat / 256 % 16),
      hexDigit (c.toNat / 16 % 16), hexDigit (c.toNat % 16)]
  else String.mk [c]

def jdumpStr (s : String) : String :=
  "\"" ++ String.join (s.toList.map escChar) ++ "\""

mutual

/-- `json.dumps(j)` with the default separators `", "` and `": "`. -/
def jdump : JVal → String
  | .jnull => "null"
  | .jbool true => "true"
  | .jbool false => "false"
  | .jnum n => toString n
  | .jstr s => jdumpStr s
  | .jarr items => "[" ++ jdumpList items ++ "]"
  | .jobj fields => "\x7b" ++ jdumpFields fields ++ "\x7d"

def jdumpList : List JVal → String
  | [] => ""
  | [x] => jdump x
  | x :: y :: xs => jdump x ++ ", " ++ jdumpList (y :: xs)

def jdumpFields : List (String × JVal) → String
  | [] => ""
  | [(k, v)] => jdumpStr k ++ ": " ++ jdump v
  | (k, v) :: f :: fs => jdumpStr k ++ ": " ++ jdump v ++ ", " ++ jdumpFields (f :: fs)

end

/-- The `parts` collection of `gemini_chat`'s Vertex-style branch:
for each item, a dict with a `"text"` key contributes that value, else a
dict whose `"content"` is a dict with a `"text"` key contributes that,
else a plain string contributes itself; anything else is skipped.
Values are collected unchecked, as in the Python. -/
def collectParts (items : List JVal) : List JVal :=
  items.filterMap (fun item =>
    match item with
    | .jobj ifs =>
      match jget ifs "text" with
      | some v => some v
      | none =>
        match jget ifs "content" with
        | some (.jobj cfs) => jget cfs "text"
        | _ => none
    | .jstr s => some (.jstr s)
    | _ => none)

/-- The `texts` collection of `gemini_chat`'s OpenAI-style branch. -/
def collectTexts (cc : List JVal) : List JVal :=
  cc.filterMap (fun c =>
    match c with
    | .jobj cfs => jget cfs "text"
    | .jstr s => some (.jstr s)
    | _ => none)

/-- `" ".join(parts)` succeeds only if every part is a string,
otherwise Python raises `TypeError`. -/
def allStrings : List JVal → Option (List String)
  | [] => some []
  | .jstr s :: rest => (allStrings rest).map (s :: ·)
  | _ => none

/-- `a or b` on JSON values. -/
def pyOr (a b : JVal) : JVal := if jTruthy a then a else b

/-- The response-shape sniffing of `gemini_chat` (`main.py` lines
161–213) applied to a parsed 200-status body.  `.ok (some s)` means a
shape matched and produced `s`; `.ok none` means the chain fell through
to the `json.dumps` fallback; `.error ()` means the Python raised
(`.get` on a non-dict `choices[0]`, or `" ".join` over a non-string). -/
def recognize (j : JVal) : Except Unit (Option String) :=
  match j with
  | .jobj f =>
    let outRes : Except Unit (Option String) :=
      match jget f "output" with
      | some (.jobj ofs) =>
        match jget ofs "content" with
        | some (.jarr items) =>
          match collectParts items with
          | [] => .ok none
          | p :: ps =>
            match allStrings (p :: ps) with
            | some ss => .ok (some (pyStrip (String.intercalate " " ss)))
            | none => .error ()
        | _ => .ok none
      | _ => .ok none
    match outRes with
    | .error _ => .error ()
    | .ok (some s) => .ok (some s)
    | .ok none =>
      let chRes : Except Unit (Option String) :=
        match jget f "choices" with
        | some (.jarr (c0 :: _)) =>
          match c0 with
          | .jobj ffs =>
            let msg := pyOr ((jget ffs "message").getD .jnull)
              (pyOr ((jget ffs "delta").getD .jnull) (.jobj ffs))
            let afterMsg : Except Unit (Option String) :=
              match msg with
              | .jobj mfs =>
                let inner : Except Unit (Option String) :=
                  match jget mfs "content" with
                  | some (.jarr cc) =>
                    match collectTexts cc with
                    | [] => .ok none
                    | t :: ts =>
                      match allStrings (t :: ts) with
                      | some ss => .ok (some (pyStrip (String.intercalate " " ss)))
                      | none => .error ()
                  | some (.jstr s) => .ok (some (pyStrip s))
                  | _ => .ok none
                match inner with
                | .error _ => .error ()
                | .ok (some s) => .ok (some s)
                | .ok none =>
                  match jget ffs "content" with
                  | some (.jstr s) => .ok (some (pyStrip s))
                  | _ => .ok none
              | _ => .ok none
            match afterMsg with
            | .error _ => .error ()
            | .ok (some s) => .ok (some s)
            | .ok none =>
              match jget ffs "text" with
              | some (.jstr s) => .ok (some (pyStrip s))
              | _ => .ok none
          | _ => .error ()
        | _ => .ok none
      match chRes with
      | .error _ => .error ()
      | .ok (some s) => .ok (some s)
      | .ok none =>
        match jget f "text" with
        | some (.jstr s) => .ok (some (pyStrip s))
        | _ => .ok none
  | _ => .ok none

/-- The HTTP interaction of one `requests.post` to the chat endpoint:
either the request itself fails, or a status code and parsed JSON body
come back. -/
inductive ChatHttp where
  | fail
  | resp (status : Nat) (body : JVal)

/-- `main.py` lines 134–218 (`gemini_chat`): `None` on transport
failure or a non-200 status; otherwise the sniffed text, or the
`json.dumps` of the body truncated to 1500 characters if no shape
matched.  `.error ()` models an uncaught Python exception. -/
def gemini_chat (h : ChatHttp) : Except Unit (Option String) :=
  match h with
  | .fail => .ok none
  | .resp status j =>
    if status = 200 then
      match recognize j with
      | .error _ => .error ()
      | .ok (some s) => .ok (some s)
      | .ok none => .ok (some ((jdump j).take 1500))
    else .ok none

def mainEmbedFailMsg : String :=
  "Embedding failed or service unavailable. Please try again later."

def mainNoPassagesMsg : String :=
  "No relevant passages found in the textbook."

def mainChatFailMsg : String :=
  "Chat generation failed. Please try again later."

/-- The one-key `meta` dicts `main.py` attaches to its responses. -/
inductive MMeta where
  | rateLimited
  | sourceCount (n : Nat)
  | chatFailed
  deriving DecidableEq

/-- Source record in `main.py` (all fields optional, `url` = `None`). -/
structure MSource where
  chapter : Option String
  «section» : Option String
  url : Option String
  deriving DecidableEq

structure MainResponse where
  answer : String
  sources : List MSource
  meta : MMeta
  deriving DecidableEq

/-- Full observable outcome of one `main.py` request. -/
structure MainOut where
  res : Except HErr MainResponse
  cache : Cache
  file : Cache
  calls : Calls
  suppliedContexts : Option (List String)

/-- `f"Chunk {r.get('chunk_index')}"`: Python renders `None` as
`"None"`. -/
def optIndexStr : Option Int → String
  | none => "None"
  | some n => toString n

/-- `main.py` lines 269–300: the part of `query_route` after an
embedding is available.  `embCalls` is the number of embed-provider
calls already made. -/
def route_with_emb (cache file : Cache) (sel : Option String) (embCalls : Nat)
    (qr : QdrantResult) (ch : ChatHttp) : MainOut :=
  let results := search_qdrant_by_embedding qr
  match results with
  | [] =>
    ⟨.ok ⟨mainNoPassagesMsg, [], .sourceCount 0⟩, cache, file,
      ⟨embCalls, 1, 0⟩, none⟩
  | _ :: _ =>
    let contexts0 := results.map (·.text)
    let contexts :=
      if selTruthy sel then pyStrip (sel.getD "") :: contexts0 else contexts0
    match gemini_chat ch with
    | .error _ =>
      ⟨.error ⟨500, "Internal Server Error"⟩, cache, file,
        ⟨embCalls, 1, 1⟩, some contexts⟩
    | .ok ans =>
      match ans with
      | none =>
        ⟨.ok ⟨mainChatFailMsg, [], .chatFailed⟩, cache, file,
          ⟨embCalls, 1, 1⟩, some contexts⟩
      | some a =>
        if a = "" then
          ⟨.ok ⟨mainChatFailMsg, [], .chatFailed⟩, cache, file,
            ⟨embCalls, 1, 1⟩, some contexts⟩
        else
          let sources := results.map (fun r =>
            MSource.mk r.chapter (some ("Chunk " ++ optIndexStr r.chunk_index)) none)
          ⟨.ok ⟨pyStrip a, sources.take 5, .sourceCount results.length⟩, cache, file,
            ⟨embCalls, 1, 1⟩, some contexts⟩

/-- `main.py` lines 246–300 (`query_route`): validate; embed cache-first
(`gemini_embed_texts` fails when it returns `None`, `[]`, or a list
whose first element is `None`); on failure answer with the fixed
degraded message and `meta = {"rate_limited": True}`; on success insert
into the cache and rewrite the cache file, then search and answer. -/
def query_route (cache file : Cache) (req : QueryRequest)
    (embedO : Option (List (Option Vec))) (qr : QdrantResult) (ch : ChatHttp) :
    MainOut :=
  if pyStrip req.question = "" then
    ⟨.error ⟨400, "Question cannot be empty"⟩, cache, file, ⟨0, 0, 0⟩, none⟩
  else
    let question := pyStrip req.question
    match cacheLookup cache question with
    | some _ => route_with_emb cache file req.selected_text 0 qr ch
    | none =>
      match embedO with
      | some (some v :: _) =>
        let c' := cacheInsert cache question v
        route_with_emb c' c' req.selected_text 1 qr ch
      | _ =>
        ⟨.ok ⟨mainEmbedFailMsg, [], .rateLimited⟩, cache, file,
          ⟨1, 0, 0⟩, none⟩

/-! ### embeddings.py: the retry-forever embedding fetch

`get_gemini_embedding` runs `while True:` around one HTTP POST per
iteration: on a 200 response with a truthy `"embedding"` field it
caches, persists and returns; on a 200 without one it sleeps 10s and
retries; on a 429 it sleeps 60s and retries; on any other status or an
exception it sleeps 10s and retries.  The iterations are driven by a
stream of per-call outcomes; a fuel bound makes the loop a total
function, with `result = none` meaning the loop was still running after
`fuel` iterations. -/

/-- Outcome of one `requests.post` to the embed endpoint: an exception,
or a status code together with the body's `"embedding"` field (absent
or present; an empty list is falsy and treated as absent by the code's
`if vector:`). -/
inductive GemResp where
  | exn
  | http (status : Nat) (vector : Option Vec)
  deriving DecidableEq

/-- State after running `get_gemini_embedding` for at most `fuel`
iterations: the returned vector if the loop finished, the cache and
cache file, total seconds slept, and HTTP calls made. -/
structure GemOut where
  result : Option Vec
  cache : Cache
  file : Cache
  sleep : Nat
  calls : Nat
  deriving DecidableEq

/-- The `while True:` loop body of `get_gemini_embedding`
(`embeddings.py` lines 50–71), iterated at most `fuel` times over the
outcome stream starting at index `idx`. -/
def ggLoop (text : String) (responses : Nat → GemResp) :
    Nat → Nat → Cache → Cache → GemOut
  | 0, _, cache, file => ⟨none, cache, file, 0, 0⟩
  | fuel + 1, idx, cache, file =>
    match responses idx with
    | .exn =>
      let r := ggLoop text responses fuel (idx + 1) cache file
      ⟨r.result, r.cache, r.file, r.sleep + 10, r.calls + 1⟩
    | .http status vec =>
      if status = 200 then
        match vec with
        | some v =>
          if v.isEmpty then
            let r := ggLoop text responses fuel (idx + 1) cache file
            ⟨r.result, r.cache, r.file, r.sleep + 10, r.calls + 1⟩
          else
            let c' := cacheInsert cache text v
            ⟨some v, c', c', 0, 1⟩
        | none =>
          let r := ggLoop text responses fuel (idx + 1) cache file
          ⟨r.result, r.cache, r.file, r.sleep + 10, r.calls + 1⟩
      else if status = 429 then
        let r := ggLoop text responses fuel (idx + 1) cache file
        ⟨r.result, r.cache, r.file, r.sleep + 60, r.calls + 1⟩
      else
        let r := ggLoop text responses fuel (idx + 1) cache file
        ⟨r.result, r.cache, r.file, r.sleep + 10, r.calls + 1⟩

/-- `embeddings.py` lines 40–71 (`get_gemini_embedding`): cache-first,
then the retry loop. -/
def get_gemini_embedding (fuel : Nat) (responses : Nat → GemResp)
    (text : String) (cache file : Cache) : GemOut :=
  match cacheLookup cache text with
  | some v => ⟨some v, cache, file, 0, 0⟩
  | none => ggLoop text responses fuel 0 cache file

/-! ### scripts/create-embeddings.py: word chunking -/

def CHUNK_SIZE : Nat := 220
def CHUNK_OVERLAP : Nat := 40

/-- The loop advances `i` by `CHUNK_SIZE - CHUNK_OVERLAP` each pass. -/
def chunkStep : Nat := CHUNK_SIZE - CHUNK_OVERLAP

/-- The `while i < len(words):` loop of `chunk_text`, phrased over the
words not yet reached (`words[i:]`); the loop strictly advances, and a
fuel of `words.length` already suffices (proved below), so the fuel is
not a semantic bound. -/
def chunkAux : Nat → List String → List (List String)
  | _, [] => []
  | 0, _ :: _ => []
  | fuel + 1, w :: rest =>
    ((w :: rest).take CHUNK_SIZE) :: chunkAux fuel ((w :: rest).drop chunkStep)

/-- The word windows of `chunk_text`, before joining. -/
def chunkSlices (text : String) : List (List String) :=
  chunkAux (pyWords text).length (pyWords text)

/-- `create-embeddings.py` lines 63–71 (`chunk_text`): split into
words, then join each 220-word window (windows start 180 words
apart). -/
def chunk_text (text : String) : List String :=
  (chunkSlices text).map (String.intercalate " ")

/-- A 200-word document, used to exercise the tail of the chunking
loop. -/
def twoHundredWords : String :=
  String.intercalate " " (List.replicate 200 "a")

/-! ## Helper lemmas -/

@[simp] theorem cacheLookup_insert_self (c : Cache) (t : String) (v : Vec) :
    cacheLookup (cacheInsert c t v) t = some v := by
  simp [cacheLookup, cacheInsert, List.lookup]

theorem cacheLookup_insert_ne (c : Cache) (t t' : String) (v : Vec) (h : t ≠ t') :
    cacheLookup (cacheInsert c t' v) t = cacheLookup c t := by
  have hb : (t == t') = false := beq_eq_false_iff_ne.mpr h
  simp [cacheLookup, cacheInsert, List.lookup, hb]

/-- `route_with_emb` never mutates the cache or the cache file, always
performs exactly one search call, and passes `embCalls` through. -/
theorem route_with_emb_state (cache file : Cache) (sel : Option String) (e : Nat)
    (qr : QdrantResult) (ch : ChatHttp) :
    (route_with_emb cache file sel e qr ch).cache = cache ∧
    (route_with_emb cache file sel e qr ch).file = file ∧
    (route_with_emb cache file sel e qr ch).calls.embed = e ∧
    (route_with_emb cache file sel e qr ch).calls.search = 1 := by
  unfold route_with_emb
  cases search_qdrant_by_embedding qr with
  | nil => simp
  | cons c cs =>
    repeat' split
    all_goals simp

/-- Whenever search produced at least one chunk, `route_with_emb` hands
the generation stage the chunk texts, with the stripped selected text
prepended when it is truthy. -/
theorem route_with_emb_suppl (cache file : Cache) (sel : Option String) (e : Nat)
    (qr : QdrantResult) (ch : ChatHttp) (c : MChunk) (cs : List MChunk)
    (hs : search_qdrant_by_embedding qr = c :: cs) :
    (route_with_emb cache file sel e qr ch).suppliedContexts =
      some (if selTruthy sel then pyStrip (sel.getD "") :: (c :: cs).map (·.text)
            else (c :: cs).map (·.text)) := by
  unfold route_with_emb
  rw [hs]
  repeat' split
  all_goals simp_all

/-- Each iteration of `get_gemini_embedding`'s loop either is still
running with the cache and file untouched, or has returned a vector
that some iteration received from a 200 response, freshly inserted
into the cache and persisted. -/
theorem ggLoop_spec (text : String) (responses : Nat → GemResp) :
    ∀ fuel idx cache file,
      ((ggLoop text responses fuel idx cache file).result = none ∧
        (ggLoop text responses fuel idx cache file).cache = cache ∧
        (ggLoop text responses fuel idx cache file).file = file) ∨
      (∃ v i, (ggLoop text responses fuel idx cache file).result = some v ∧
        responses (idx + i) = .http 200 (some v) ∧ v.isEmpty = false ∧
        (ggLoop text responses fuel idx cache file).cache = cacheInsert cache text v ∧
        (ggLoop text responses fuel idx cache file).file = cacheInsert cache text v) := by
  intro fuel
  induction fuel with
  | zero => intro idx cache file; exact .inl ⟨rfl, rfl, rfl⟩
  | succ fuel ih =>
    intro idx cache file
    rcases hr : responses idx with _ | ⟨status, vec⟩
    · rcases ih (idx + 1) cache file with h | ⟨v, i, h⟩
      · exact .inl (by simpa [ggLoop, hr] using h)
      · refine .inr ⟨v, i + 1, ?_⟩
        have hidx : idx + (i + 1) = idx + 1 + i := by omega
        simpa [ggLoop, hr, hidx] using h
    · by_cases h200 : status = 200
      · subst h200
        cases vec with
        | none =>
          rcases ih (idx + 1) cache file with h | ⟨v, i, h⟩
          · exact .inl (by simpa [ggLoop, hr] using h)
          · refine .inr ⟨v, i + 1, ?_⟩
            have hidx : idx + (i + 1) = idx + 1 + i := by omega
            simpa [ggLoop, hr, hidx] using h
        | some v =>
          by_cases hv : v.isEmpty
          · rcases ih (idx + 1) cache file with h | ⟨w, i, h⟩
            · exact .inl (by simpa [ggLoop, hr, hv] using h)
            · refine .inr ⟨w, i + 1, ?_⟩
              have hidx : idx + (i + 1) = idx + 1 + i := by omega
              simpa [ggLoop, hr, hv, hidx] using h
          · refine .inr ⟨v, 0, ?_⟩
            simp [ggLoop, hr, hv, Bool.eq_false_iff.mpr hv]
      · by_cases h429 : status = 429
        · subst h429
          rcases ih (idx + 1) cache file with h | ⟨v, i, h⟩
          · exact .inl (by simpa [ggLoop, hr] using h)
          · refine .inr ⟨v, i + 1, ?_⟩
            have hidx : idx + (i + 1) = idx + 1 + i := by omega
            simpa [ggLoop, hr, hidx] using h
        · rcases ih (idx + 1) cache file with h | ⟨v, i, h⟩
          · exact .inl (by simpa [ggLoop, hr, h200, h429] using h)
          · refine .inr ⟨v, i + 1, ?_⟩
            have hidx : idx + (i + 1) = idx + 1 + i := by omega
            simpa [ggLoop, hr, h200, h429, hidx] using h

/-- Under persistent rate limiting (every call answers 429) the loop
never returns: after any number of iterations it is still running,
having slept exactly 60 seconds per iteration and mutated nothing. -/
theorem ggLoop_persistent (text : String) (responses : Nat → GemResp)
    (hall : ∀ n, responses n = .http 429 none) :
    ∀ fuel idx cache file,
      ggLoop text responses fuel idx cache file = ⟨none, cache, file, 60 * fuel, fuel⟩ := by
  intro fuel
  induction fuel with
  | zero => intro idx cache file; simp [ggLoop]
  | succ fuel ih =>
    intro idx cache file
    simp [ggLoop, hall idx, ih (idx + 1)]
    omega

/-- Characterisation of the chunking loop: provided the fuel covers the
word count, the `k`-th produced window is exactly
`words[chunkStep * k :][: CHUNK_SIZE]`, and a window exists exactly
when the loop index `chunkStep * k` is still in range. -/
theorem chunkAux_getElem? (fuel : Nat) (ws : List String) (k : Nat)
    (hf : ws.length ≤ fuel) :
    (chunkAux fuel ws)[k]? =
      if chunkStep * k < ws.length then
        some ((ws.drop (chunkStep * k)).take CHUNK_SIZE)
      else none := by
  induction fuel generalizing ws k with
  | zero =>
    have hws : ws = [] := List.eq_nil_of_length_eq_zero (Nat.le_zero.mp hf)
    subst hws
    simp [chunkAux]
  | succ fuel ih =>
    cases ws with
    | nil => simp [chunkAux]
    | cons w rest =>
      cases k with
      | zero => simp [chunkAux]
      | succ k =>
        have hstep : chunkStep = 180 := rfl
        have hlen : ((w :: rest).drop chunkStep).length ≤ fuel := by
          rw [List.length_drop]
          simp only [List.length_cons] at hf ⊢
          omega
        have hrec : (chunkAux (fuel + 1) (w :: rest))[k + 1]? =
            (chunkAux fuel ((w :: rest).drop chunkStep))[k]? := by
          simp [chunkAux]
        rw [hrec, ih ((w :: rest).drop chunkStep) k hlen, List.drop_drop,
          List.length_drop]
        have harith : chunkStep + chunkStep * k = chunkStep * (k + 1) := by ring
        rw [harith]
        have hcond : (chunkStep * k < (w :: rest).length - chunkStep) ↔
            (chunkStep * (k + 1) < (w :: rest).length) := by
          rw [hstep] at *
          omega
        by_cases hc : chunkStep * (k + 1) < (w :: rest).length
        · rw [if_pos (hcond.mpr hc), if_pos hc]
        · rw [if_neg (fun h => hc (hcond.mp h)), if_neg hc]

/-- A non-empty strip forces a non-empty string, so
`sel and sel.strip()` is truthy. -/
theorem selTruthy_of_strip (s : String) (h : pyStrip s ≠ "") :
    selTruthy (some s) = true := by
  have hs : s ≠ "" := fun he => h (by rw [he]; rfl)
  simp [selTruthy, hs, h]

/-! ## Claims -/

/-- C1: for every question that is empty or whitespace-only after
trimming, both `/query` handlers (`main.py` `query_route` and `app.py`
`query_chatbot`) reject with HTTP 400 and detail "Question cannot be
empty", make no embedding, search or chat call, and leave the cache and
cache file untouched. -/
theorem claim_C1 (cache file : Cache) (req : QueryRequest)
    (embedO : Option (List (Option Vec))) (qr qr' : QdrantResult) (ch : ChatHttp)
    (eo : CoEmbed) (co : CoChat) (h : pyStrip req.question = "") :
    query_route cache file req embedO qr ch =
      ⟨.error ⟨400, "Question cannot be empty"⟩, cache, file, ⟨0, 0, 0⟩, none⟩ ∧
    query_chatbot cache file req eo qr' co =
      ⟨.error ⟨400, "Question cannot be empty"⟩, cache, file, ⟨0, 0, 0⟩, none⟩ := by
  constructor <;> simp [query_route, query_chatbot, h]

/-- Witness for C1 at the whitespace-only question `"   "`. -/
theorem claim_C1_witness :
    query_route [] [] ⟨"   ", none⟩ none .error .fail =
      ⟨.error ⟨400, "Question cannot be empty"⟩, [], [], ⟨0, 0, 0⟩, none⟩ ∧
    query_chatbot [] [] ⟨"   ", none⟩ .err .error .err =
      ⟨.error ⟨400, "Question cannot be empty"⟩, [], [], ⟨0, 0, 0⟩, none⟩ :=
  claim_C1 [] [] ⟨"   ", none⟩ none .error .error .fail .err .err (by decide)

/-- C9 (implicit): when the chat provider answers HTTP 200 with a JSON
body that matches none of the recognised response shapes (the parse
chain falls through without raising), `gemini_chat` does not signal a
failure: it returns the `json.dumps` serialisation of the body,
truncated to 1500 characters, as the answer text. -/
theorem claim_C9 (j : JVal) (h : recognize j = .ok none) :
    gemini_chat (.resp 200 j) = .ok (some ((jdump j).take 1500)) := by
  simp [gemini_chat, h]

/-- Witness for C9 at the unrecognised body `{"foo": "bar"}`. -/
theorem claim_C9_witness :
    recognize (.jobj [("foo", .jstr "bar")]) = .ok none ∧
    gemini_chat (.resp 200 (.jobj [("foo", .jstr "bar")])) =
      .ok (some ((jdump (.jobj [("foo", .jstr "bar")])).take 1500)) :=
  ⟨rfl, claim_C9 (.jobj [("foo", .jstr "bar")]) rfl⟩

/-- C7 (amended): neither search adapter fails on missing payload
fields — one chunk per hit, always.  A missing `text` defaults to `""`
in both variants, but a missing `chapter` defaults to `None` in
`main.py` and to `"Unknown"` in `app.py`, and a missing `chunk_index`
defaults to `None` in `main.py` and to `0` in `app.py` (the claim's
"chapter defaults to the empty string" holds in neither variant). -/
theorem claim_C7 (p : Payload) (score : Option Int) (hits : List RawHit) :
    mkMChunk ⟨some p, score⟩ = ⟨p.text.getD "", p.chapter, p.chunk_index, score⟩ ∧
    mkAChunk ⟨some p, score⟩ =
      ⟨p.text.getD "", p.chapter.getD "Unknown", p.chunk_index.getD 0, score⟩ ∧
    mkMChunk ⟨none, score⟩ = ⟨"", none, none, score⟩ ∧
    mkAChunk ⟨none, score⟩ = ⟨"", "Unknown", 0, score⟩ ∧
    (search_qdrant_by_embedding (.ok hits)).length = hits.length := by
  refine ⟨rfl, rfl, rfl, rfl, ?_⟩
  simp [search_qdrant_by_embedding]

/-- Counterexample for C7 as stated: on a hit with an empty payload the
`app.py` adapter fills in chapter `"Unknown"` (not `""`), and the
`main.py` adapter fills in chapter `None` (not `""`) and index `None`
(not `0`). -/
theorem claim_C7_cex :
    search_qdrant_by_embedding (.ok [⟨none, none⟩]) = [⟨"", none, none, none⟩] ∧
    mkAChunk ⟨none, none⟩ = ⟨"", "Unknown", 0, none⟩ ∧
    ("Unknown" : String) ≠ "" :=
  ⟨rfl, rfl, by decide⟩

/-- C6: on provider rate limiting, `app.py`'s `get_embedding` returns
the empty result after exactly one provider call, with no retry and no
state change; `embeddings.py`'s `get_gemini_embedding` instead sleeps a
fixed 60 seconds per 429 and retries unboundedly — under persistent
rate limiting it is still running after every bound `fuel`, and when
its loop does return a vector, that vector came from a successful 200
response (it never returns a failure value). -/
theorem claim_C6 :
    (∀ (cache file : Cache) (t : String), cacheLookup cache t = none →
      get_embedding cache file t .rateLimited = ⟨[], cache, file, 1⟩) ∧
    (∀ (responses : Nat → GemResp) (t : String) (cache file : Cache) (fuel idx : Nat),
      (∀ n, responses n = .http 429 none) →
      ggLoop t responses fuel idx cache file = ⟨none, cache, file, 60 * fuel, fuel⟩) ∧
    (∀ (responses : Nat → GemResp) (t : String) (cache file : Cache) (fuel : Nat),
      (∀ n, responses n = .http 429 none) → cacheLookup cache t = none →
      get_gemini_embedding fuel responses t cache file =
        ⟨none, cache, file, 60 * fuel, fuel⟩) ∧
    (∀ (responses : Nat → GemResp) (t : String) (cache file : Cache)
        (fuel idx : Nat) (v : Vec),
      (ggLoop t responses fuel idx cache file).result = some v →
      ∃ i, responses (idx + i) = .http 200 (some v) ∧ v ≠ []) := by
  refine ⟨?_, ?_, ?_, ?_⟩
  · intro cache file t h
    simp [get_embedding, h]
  · intro responses t cache file fuel idx hall
    exact ggLoop_persistent t responses hall fuel idx cache file
  · intro responses t cache file fuel hall h
    simp [get_gemini_embedding, h, ggLoop_persistent t responses hall]
  · intro responses t cache file fuel idx v h
    rcases ggLoop_spec t responses fuel idx cache file with ⟨h1, _⟩ | ⟨w, i, h1, h2, h3, _⟩
    · rw [h] at h1; cases h1
    · have hw := h1.symm.trans h
      injection hw with hw
      subst hw
      exact ⟨i, h2, List.isEmpty_eq_false.mp h3⟩

/-- Witness for C6: one rate-limited `app.py` call, and two iterations
of the `embeddings.py` loop under persistent 429s. -/
theorem claim_C6_witness :
    get_embedding [] [] "q" .rateLimited = ⟨[], [], [], 1⟩ ∧
    ggLoop "q" (fun _ => .http 429 none) 2 0 [] [] = ⟨none, [], [], 120, 2⟩ := by
  refine ⟨claim_C6.1 [] [] "q" rfl, ?_⟩
  have h := claim_C6.2.1 (fun _ => .http 429 none) "q" [] [] 2 0 (fun _ => rfl)
  simpa using h

/-- C10 (implicit): a failed embedding call leaves both the in-memory
cache and the backing cache file unchanged, in all three embedding
paths (`main.py` `query_route`, `app.py` `get_embedding`,
`embeddings.py` loop); an entry is gained only on success, and then the
file is immediately rewritten to the updated cache. -/
theorem claim_C10 :
    (∀ (cache file : Cache) (req : QueryRequest)
        (embedO : Option (List (Option Vec))) (qr : QdrantResult) (ch : ChatHttp),
      (∀ (v : Vec) (es : List (Option Vec)), embedO ≠ some (some v :: es)) →
      (query_route cache file req embedO qr ch).cache = cache ∧
      (query_route cache file req embedO qr ch).file = file) ∧
    (∀ (cache file : Cache) (req : QueryRequest) (v : Vec) (es : List (Option Vec))
        (qr : QdrantResult) (ch : ChatHttp),
      pyStrip req.question ≠ "" → cacheLookup cache (pyStrip req.question) = none →
      (query_route cache file req (some (some v :: es)) qr ch).cache =
        cacheInsert cache (pyStrip req.question) v ∧
      (query_route cache file req (some (some v :: es)) qr ch).file =
        (query_route cache file req (some (some v :: es)) qr ch).cache) ∧
    (∀ (cache file : Cache) (t : String) (o : CoEmbed),
      o = .rateLimited ∨ o = .err →
      (get_embedding cache file t o).cache = cache ∧
      (get_embedding cache file t o).file = file) ∧
    (∀ (cache file : Cache) (t : String) (v : Vec),
      cacheLookup cache t = none →
      (get_embedding cache file t (.ok v)).cache = cacheInsert cache t v ∧
      (get_embedding cache file t (.ok v)).file =
        (get_embedding cache file t (.ok v)).cache) ∧
    (∀ (responses : Nat → GemResp) (t : String) (cache file : Cache) (fuel idx : Nat),
      (ggLoop t responses fuel idx cache file).result = none →
      (ggLoop t responses fuel idx cache file).cache = cache ∧
      (ggLoop t responses fuel idx cache file).file = file) ∧
    (∀ (responses : Nat → GemResp) (t : String) (cache file : Cache)
        (fuel idx : Nat) (v : Vec),
      (ggLoop t responses fuel idx cache file).result = some v →
      (ggLoop t responses fuel idx cache file).cache = cacheInsert cache t v ∧
      (ggLoop t responses fuel idx cache file).file =
        (ggLoop t responses fuel idx cache file).cache) := by
  refine ⟨?_, ?_, ?_, ?_, ?_, ?_⟩
  · intro cache file req embedO qr ch hfail
    by_cases hq : pyStrip req.question = ""
    · simp [query_route, hq]
    · rcases hc : cacheLookup cache (pyStrip req.question) with _ | v
      · rcases embedO with _ | ⟨_ | ⟨(_ | v), es⟩⟩
        · simp [query_route, hq, hc]
        · simp [query_route, hq, hc]
        · simp [query_route, hq, hc]
        · exact absurd rfl (hfail v es)
      · have hst := route_with_emb_state cache file req.selected_text 0 qr ch
        simp only [query_route, hq, if_neg hq, hc]
        exact ⟨hst.1, hst.2.1⟩
  · intro cache file req v es qr ch hq hc
    have hst := route_with_emb_state (cacheInsert cache (pyStrip req.question) v)
      (cacheInsert cache (pyStrip req.question) v) req.selected_text 1 qr ch
    simp only [query_route, if_neg hq, hc]
    exact ⟨hst.1, hst.2.1.trans hst.1.symm⟩
  · intro cache file t o ho
    rcases hc : cacheLookup cache t with _ | v
    · rcases ho with rfl | rfl <;> simp [get_embedding, hc]
    · simp [get_embedding, hc]
  · intro cache file t v hc
    simp [get_embedding, hc]
  · intro responses t cache file fuel idx h
    rcases ggLoop_spec t responses fuel idx cache file with ⟨_, h2, h3⟩ | ⟨w, i, h1, _⟩
    · exact ⟨h2, h3⟩
    · rw [h] at h1; cases h1
  · intro responses t cache file fuel idx v h
    rcases ggLoop_spec t responses fuel idx cache file with ⟨h1, _⟩ | ⟨w, i, h1, _, _, h4, h5⟩
    · rw [h] at h1; cases h1
    · have hw := h1.symm.trans h
      injection hw with hw
      subst hw
      exact ⟨h4, h5.trans h4.symm⟩

/-- Witness for C10: a rate-limited `main.py` request and a successful
`app.py` embed at concrete inputs. -/
theorem claim_C10_witness :
    ((query_route [] [] ⟨"q", none⟩ none .error .fail).cache = [] ∧
      (query_route [] [] ⟨"q", none⟩ none .error .fail).file = []) ∧
    ((get_embedding [] [] "q" (.ok [1, 2])).cache = cacheInsert [] "q" [1, 2] ∧
      (get_embedding [] [] "q" (.ok [1, 2])).file =
        (get_embedding [] [] "q" (.ok [1, 2])).cache) :=
  ⟨claim_C10.1 [] [] ⟨"q", none⟩ none .error .fail (fun v es h => by cases h),
    claim_C10.2.2.2.1 [] [] "q" [1, 2] rfl⟩

/-- C4: in `app.py`, once the embedding provider has been called for an
uncached text `t` and the vector cached, looking `t` up again returns
the identical vector from the cache with no further provider call; a
cached entry is never changed or invalidated by any later operation of
either variant, and in `main.py` a repeated identical question likewise
makes no second embed-provider call. -/
theorem claim_C4 :
    (∀ (cache file : Cache) (t : String) (v : Vec) (o' : CoEmbed),
      t ≠ "" → cacheLookup cache t = none →
      get_embedding cache file t (.ok v) =
        ⟨v, cacheInsert cache t v, cacheInsert cache t v, 1⟩ ∧
      get_embedding (cacheInsert cache t v) (cacheInsert cache t v) t o' =
        ⟨v, cacheInsert cache t v, cacheInsert cache t v, 0⟩) ∧
    (∀ (cache file : Cache) (t t' : String) (w : Vec) (o : CoEmbed),
      cacheLookup cache t = some w →
      cacheLookup (get_embedding cache file t' o).cache t = some w ∧
      (get_embedding cache file t o).emb = w ∧
      (get_embedding cache file t o).providerCalls = 0) ∧
    (∀ (cache file : Cache) (req : QueryRequest) (v : Vec) (es : List (Option Vec))
        (qr : QdrantResult) (ch : ChatHttp),
      pyStrip req.question ≠ "" → cacheLookup cache (pyStrip req.question) = none →
      cacheLookup (query_route cache file req (some (some v :: es)) qr ch).cache
        (pyStrip req.question) = some v ∧
      ∀ (embedO' : Option (List (Option Vec))) (qr' : QdrantResult) (ch' : ChatHttp),
        (query_route (query_route cache file req (some (some v :: es)) qr ch).cache
          (query_route cache file req (some (some v :: es)) qr ch).file
          req embedO' qr' ch').calls.embed = 0) ∧
    (∀ (cache file : Cache) (req : QueryRequest)
        (embedO : Option (List (Option Vec))) (qr : QdrantResult) (ch : ChatHttp)
        (t : String) (w : Vec),
      cacheLookup cache t = some w →
      cacheLookup (query_route cache file req embedO qr ch).cache t = some w) := by
  refine ⟨?_, ?_, ?_, ?_⟩
  · intro cache file t v o' _ hc
    refine ⟨by simp [get_embedding, hc], by simp [get_embedding]⟩
  · intro cache file t t' w o h
    refine ⟨?_, by simp [get_embedding, h], by simp [get_embedding, h]⟩
    rcases hc : cacheLookup cache t' with _ | v
    · cases o with
      | ok v =>
        have hne : t ≠ t' := fun he => by rw [he, hc] at h; cases h
        simp only [get_embedding, hc]
        rw [cacheLookup_insert_ne cache t t' v hne]
        exact h
      | rateLimited => simpa [get_embedding, hc] using h
      | err => simpa [get_embedding, hc] using h
    · simpa [get_embedding, hc] using h
  · intro cache file req v es qr ch hq hc
    have hcache : (query_route cache file req (some (some v :: es)) qr ch).cache =
        cacheInsert cache (pyStrip req.question) v := by
      simp only [query_route, if_neg hq, hc]
      exact (route_with_emb_state _ _ _ _ _ _).1
    refine ⟨by rw [hcache]; exact cacheLookup_insert_self _ _ _, ?_⟩
    intro embedO' qr' ch'
    rw [hcache]
    simp only [query_route, if_neg hq, cacheLookup_insert_self]
    exact (route_with_emb_state _ _ _ _ _ _).2.2.1
  · intro cache file req embedO qr ch t w h
    by_cases hq : pyStrip req.question = ""
    · simpa [query_route, hq] using h
    · rcases hc : cacheLookup cache (pyStrip req.question) with _ | v
      · rcases embedO with _ | ⟨_ | ⟨(_ | v), es⟩⟩
        · simpa [query_route, hq, hc] using h
        · simpa [query_route, hq, hc] using h
        · simpa [query_route, hq, hc] using h
        · have hne : t ≠ pyStrip req.question := fun he => by rw [he, hc] at h; cases h
          simp only [query_route, if_neg hq, hc]
          rw [(route_with_emb_state _ _ _ _ _ _).1,
            cacheLookup_insert_ne cache t (pyStrip req.question) v hne]
          exact h
      · simp only [query_route, if_neg hq, hc]
        rw [(route_with_emb_state _ _ _ _ _ _).1]
        exact h

/-- Witness for C4: caching then re-looking-up the text `"hello"`. -/
theorem claim_C4_witness :
    get_embedding [] [] "hello" (.ok [3]) =
      ⟨[3], cacheInsert [] "hello" [3], cacheInsert [] "hello" [3], 1⟩ ∧
    get_embedding (cacheInsert [] "hello" [3]) (cacheInsert [] "hello" [3])
      "hello" .rateLimited =
      ⟨[3], cacheInsert [] "hello" [3], cacheInsert [] "hello" [3], 0⟩ :=
  claim_C4.1 [] [] "hello" [3] .rateLimited (by decide) rfl

/-- Counterexample for C2 as stated: in `app.py`, a query whose vector
search returns zero chunks but whose `selected_text` is non-empty does
call the chat model (one `co.chat` call), and its answer is the model's
text, not the fixed "no relevant passages" message. -/
theorem claim_C2_cex :
    (query_chatbot [("q", [1, 2])] [("q", [1, 2])] ⟨"q", some "note"⟩ .err
      (.ok []) (.ok "model answer")).calls.chat = 1 ∧
    (query_chatbot [("q", [1, 2])] [("q", [1, 2])] ⟨"q", some "note"⟩ .err
      (.ok []) (.ok "model answer")).res = .ok ⟨"model answer", []⟩ ∧
    "model answer" ≠ mainNoPassagesMsg ∧ "model answer" ≠ appNoContextMsg :=
  ⟨rfl, rfl, by decide, by decide⟩

/-- C2 (amended): for queries that reach the search stage and whose
vector search returns zero chunks, `main.py`'s `query_route` always
responds with the fixed "No relevant passages found in the textbook."
answer, an empty source list and no chat call; `app.py`'s
`query_chatbot` does the same (with its own fixed message) only when
`selected_text` is empty after trimming — otherwise it calls the chat
model (see the counterexample). -/
theorem claim_C2 :
    (∀ (cache file : Cache) (req : QueryRequest) (v : Vec)
        (embedO : Option (List (Option Vec))) (qr : QdrantResult) (ch : ChatHttp),
      pyStrip req.question ≠ "" → cacheLookup cache (pyStrip req.question) = some v →
      search_qdrant_by_embedding qr = [] →
      query_route cache file req embedO qr ch =
        ⟨.ok ⟨mainNoPassagesMsg, [], .sourceCount 0⟩, cache, file, ⟨0, 1, 0⟩, none⟩) ∧
    (∀ (cache file : Cache) (req : QueryRequest) (v : Vec) (es : List (Option Vec))
        (qr : QdrantResult) (ch : ChatHttp),
      pyStrip req.question ≠ "" → cacheLookup cache (pyStrip req.question) = none →
      search_qdrant_by_embedding qr = [] →
      query_route cache file req (some (some v :: es)) qr ch =
        ⟨.ok ⟨mainNoPassagesMsg, [], .sourceCount 0⟩,
          cacheInsert cache (pyStrip req.question) v,
          cacheInsert cache (pyStrip req.question) v, ⟨1, 1, 0⟩, none⟩) ∧
    (∀ (cache file : Cache) (req : QueryRequest) (v : Vec) (eo : CoEmbed)
        (co : CoChat),
      pyStrip req.question ≠ "" → cacheLookup cache (pyStrip req.question) = some v →
      v ≠ [] → selTruthy req.selected_text = false →
      query_chatbot cache file req eo (.ok []) co =
        ⟨.ok ⟨appNoContextMsg, []⟩, cache, file, ⟨0, 1, 0⟩, some []⟩) := by
  refine ⟨?_, ?_, ?_⟩
  · intro cache file req v embedO qr ch hq hc hs
    simp only [query_route, if_neg hq, hc]
    simp [route_with_emb, hs]
  · intro cache file req v es qr ch hq hc hs
    simp only [query_route, if_neg hq, hc]
    simp [route_with_emb, hs]
  · intro cache file req v eo co hq hc hv hsel
    have hv' : v.isEmpty = false := List.isEmpty_eq_false.mpr hv
    simp [query_chatbot, if_neg hq, hsel, search_qdrant, get_embedding, hc, hv',
      generate_answer]

/-- Witness for C2 at a concrete cached question and an erroring
search. -/
theorem claim_C2_witness :
    query_route [("q", [1])] [("q", [1])] ⟨"q", none⟩ none .error .fail =
      ⟨.ok ⟨mainNoPassagesMsg, [], .sourceCount 0⟩, [("q", [1])], [("q", [1])],
        ⟨0, 1, 0⟩, none⟩ :=
  claim_C2.1 [("q", [1])] [("q", [1])] ⟨"q", none⟩ [1] none .error .fail
    (by decide) rfl rfl

/-- Counterexample for C3 as stated: in `main.py`, a query with a
non-empty `selected_text` whose search returns zero chunks never
reaches the answer-generation adapter at all — no context passages,
`selected_text` included, are supplied to it, contradicting "regardless
of how many chunks the search returned — including zero". -/
theorem claim_C3_cex :
    (query_route [("q", [1, 2])] [("q", [1, 2])] ⟨"q", some "sel"⟩ none
      (.ok []) .fail).suppliedContexts = none ∧
    (query_route [("q", [1, 2])] [("q", [1, 2])] ⟨"q", some "sel"⟩ none
      (.ok []) .fail).calls.chat = 0 ∧
    selTruthy (some "sel") = true :=
  ⟨rfl, rfl, rfl⟩

/-- C3 (amended): whenever `selected_text` is non-empty after trimming,
its trimmed value is the first context passage supplied to the
answer-generation stage, ahead of all retrieved chunk texts — in
`app.py` for every search outcome including zero chunks, and in
`main.py` whenever the search returned at least one chunk; with zero
chunks `main.py` never invokes the adapter (see the counterexample). -/
theorem claim_C3 :
    (∀ (cache file : Cache) (req : QueryRequest) (s : String) (eo : CoEmbed)
        (qr : QdrantResult) (co : CoChat),
      pyStrip req.question ≠ "" → req.selected_text = some s → pyStrip s ≠ "" →
      (query_chatbot cache file req eo qr co).suppliedContexts =
        some (pyStrip s ::
          (search_qdrant cache file (pyStrip req.question) eo qr).chunks.map (·.text))) ∧
    (∀ (cache file : Cache) (req : QueryRequest) (s : String) (v : Vec)
        (embedO : Option (List (Option Vec))) (qr : QdrantResult) (ch : ChatHttp)
        (c : MChunk) (cs : List MChunk),
      pyStrip req.question ≠ "" → cacheLookup cache (pyStrip req.question) = some v →
      req.selected_text = some s → pyStrip s ≠ "" →
      search_qdrant_by_embedding qr = c :: cs →
      (query_route cache file req embedO qr ch).suppliedContexts =
        some (pyStrip s :: (c :: cs).map (·.text))) ∧
    (∀ (cache file : Cache) (req : QueryRequest) (v : Vec)
        (embedO : Option (List (Option Vec))) (qr : QdrantResult) (ch : ChatHttp),
      pyStrip req.question ≠ "" → cacheLookup cache (pyStrip req.question) = some v →
      search_qdrant_by_embedding qr = [] →
      (query_route cache file req embedO qr ch).suppliedContexts = none ∧
      (query_route cache file req embedO qr ch).calls.chat = 0) := by
  refine ⟨?_, ?_, ?_⟩
  · intro cache file req s eo qr co hq hsel hs
    have ht := selTruthy_of_strip s hs
    simp [query_chatbot, if_neg hq, hsel, ht]
  · intro cache file req s v embedO qr ch c cs hq hc hsel hss hs
    have ht := selTruthy_of_strip s hss
    simp only [query_route, if_neg hq, hc]
    rw [route_with_emb_suppl cache file req.selected_text 0 qr ch c cs hs]
    simp [hsel, ht]
  · intro cache file req v embedO qr ch hq hc hs
    simp only [query_route, if_neg hq, hc]
    simp [route_with_emb, hs]

/-- Witness for C3 at a concrete query with `selected_text = "sel"` and
zero search results in `app.py`. -/
theorem claim_C3_witness :
    (query_chatbot [("q", [7])] [("q", [7])] ⟨"q", some "sel"⟩ .err (.ok [])
      .err).suppliedContexts =
      some (pyStrip "sel" ::
        (search_qdrant [("q", [7])] [("q", [7])] (pyStrip "q") .err
          (.ok [])).chunks.map (·.text)) :=
  claim_C3.1 [("q", [7])] [("q", [7])] ⟨"q", some "sel"⟩ "sel" .err (.ok []) .err
    (by decide) rfl (by decide)

/-- Counterexample for C5 as stated: in `app.py`, a query whose embed
call is rate-limited but whose `selected_text` is non-empty gets the
chat model's text as its answer — not the fixed degraded-service
message — and the `app.py` response model carries no metadata flag at
all. -/
theorem claim_C5_cex :
    (query_chatbot [] [] ⟨"q", some "x"⟩ .rateLimited (.ok [])
      (.ok "model text")).res = .ok ⟨"model text", []⟩ ∧
    (query_chatbot [] [] ⟨"q", some "x"⟩ .rateLimited (.ok [])
      (.ok "model text")).calls.chat = 1 ∧
    "model text" ≠ appNoContextMsg ∧ "model text" ≠ mainEmbedFailMsg :=
  ⟨rfl, rfl, by decide, by decide⟩

/-- C5 (amended): on an embedding-provider failure of any kind,
`main.py` responds HTTP 200 with the fixed degraded message, empty
sources and `meta = {"rate_limited": True}`; `app.py` responds HTTP 200
with empty sources and — when `selected_text` is empty after trimming —
its fixed degraded message, but sets no metadata flag (its response
model has none), and with a non-empty `selected_text` it instead calls
the chat model (see the counterexample). -/
theorem claim_C5 :
    (∀ (cache file : Cache) (req : QueryRequest)
        (embedO : Option (List (Option Vec))) (qr : QdrantResult) (ch : ChatHttp),
      pyStrip req.question ≠ "" → cacheLookup cache (pyStrip req.question) = none →
      (∀ (v : Vec) (es : List (Option Vec)), embedO ≠ some (some v :: es)) →
      query_route cache file req embedO qr ch =
        ⟨.ok ⟨mainEmbedFailMsg, [], .rateLimited⟩, cache, file, ⟨1, 0, 0⟩, none⟩) ∧
    (∀ (cache file : Cache) (req : QueryRequest) (eo : CoEmbed)
        (qr : QdrantResult) (co : CoChat),
      pyStrip req.question ≠ "" → cacheLookup cache (pyStrip req.question) = none →
      (eo = .rateLimited ∨ eo = .err) → selTruthy req.selected_text = false →
      query_chatbot cache file req eo qr co =
        ⟨.ok ⟨appNoContextMsg, []⟩, cache, file, ⟨1, 0, 0⟩, some []⟩) := by
  refine ⟨?_, ?_⟩
  · intro cache file req embedO qr ch hq hc hfail
    rcases embedO with _ | ⟨_ | ⟨(_ | v), es⟩⟩
    · simp [query_route, if_neg hq, hc]
    · simp [query_route, if_neg hq, hc]
    · simp [query_route, if_neg hq, hc]
    · exact absurd rfl (hfail v es)
  · intro cache file req eo qr co hq hc ho hsel
    rcases ho with rfl | rfl <;>
      simp [query_chatbot, if_neg hq, hsel, search_qdrant, get_embedding, hc,
        generate_answer]

/-- Witness for C5 at a concrete rate-limited embed in both variants. -/
theorem claim_C5_witness :
    query_route [] [] ⟨"q", none⟩ none .error .fail =
      ⟨.ok ⟨mainEmbedFailMsg, [], .rateLimited⟩, [], [], ⟨1, 0, 0⟩, none⟩ ∧
    query_chatbot [] [] ⟨"q", none⟩ .rateLimited .error .err =
      ⟨.ok ⟨appNoContextMsg, []⟩, [], [], ⟨1, 0, 0⟩, some []⟩ :=
  ⟨claim_C5.1 [] [] ⟨"q", none⟩ none .error .fail (by decide) rfl
      (fun v es h => by cases h),
    claim_C5.2 [] [] ⟨"q", none⟩ .rateLimited .error .err (by decide) rfl
      (Or.inl rfl) rfl⟩

set_option maxRecDepth 100000 in
/-- Counterexample for C8 as stated: a 200-word document chunks into a
200-word chunk followed by a 20-word chunk; the later chunk has only 20
words (all of them the tail of the earlier chunk), so this consecutive
pair overlaps by 20 words, not 40. -/
theorem claim_C8_cex :
    chunk_text twoHundredWords =
      [String.intercalate " " (List.replicate 200 "a"),
        String.intercalate " " (List.replicate 20 "a")] ∧
    chunkSlices twoHundredWords = [List.replicate 200 "a", List.replicate 20 "a"] ∧
    (List.replicate 200 "a").drop 180 = List.replicate 20 "a" ∧
    (List.replicate 20 "a").length = 20 ∧ ¬(40 ≤ (List.replicate 20 "a").length) :=
  ⟨by decide, by decide, by decide, by decide, by decide⟩

/-- C8 (amended): `chunk_text` joins the word windows of the document:
the `k`-th window is `words[180*k :][: 220]`, so every chunk has at most
220 words and successive chunks start 180 words apart; every word of
the document occurs (at its position) in some chunk; two consecutive
chunks share exactly `min 40 (wordCount - 180*(k+1))` words — 40 when
at least 220 words remain at the earlier chunk's start, fewer for a
short final chunk (see the counterexample); and the loop terminates:
any fuel at least the word count yields the same chunk list. -/
theorem claim_C8 (text : String) :
    chunk_text text = (chunkSlices text).map (String.intercalate " ") ∧
    (∀ (k : Nat) (w : List String), (chunkSlices text)[k]? = some w →
      w = ((pyWords text).drop (chunkStep * k)).take CHUNK_SIZE ∧
      w.length ≤ CHUNK_SIZE) ∧
    (∀ j : Nat, j < (pyWords text).length →
      ∃ (k : Nat) (w : List String), (chunkSlices text)[k]? = some w ∧
        chunkStep * k ≤ j ∧ w[j - chunkStep * k]? = (pyWords text)[j]?) ∧
    (∀ (k : Nat) (w w' : List String), (chunkSlices text)[k]? = some w →
      (chunkSlices text)[k + 1]? = some w' →
      w.drop chunkStep = w'.take CHUNK_OVERLAP ∧
      (w.drop chunkStep).length =
        min CHUNK_OVERLAP ((pyWords text).length - chunkStep * (k + 1))) ∧
    (∀ fuel : Nat, (pyWords text).length ≤ fuel →
      chunkAux fuel (pyWords text) = chunkSlices text) := by
  have hstep : chunkStep = 180 := rfl
  have hsz : CHUNK_SIZE = 220 := rfl
  have hov : CHUNK_OVERLAP = 40 := rfl
  refine ⟨rfl, ?_, ?_, ?_, ?_⟩
  · intro k w h
    rw [chunkSlices, chunkAux_getElem? _ _ k (le_refl _)] at h
    by_cases hc : chunkStep * k < (pyWords text).length
    · rw [if_pos hc] at h
      injection h with h
      refine ⟨h.symm, ?_⟩
      rw [← h, List.length_take]
      exact Nat.min_le_left _ _
    · rw [if_neg hc] at h
      cases h
  · intro j hj
    refine ⟨j / chunkStep,
      ((pyWords text).drop (chunkStep * (j / chunkStep))).take CHUNK_SIZE, ?_, ?_, ?_⟩
    · rw [chunkSlices, chunkAux_getElem? _ _ _ (le_refl _)]
      rw [if_pos (by rw [hstep] at *; omega)]
    · rw [hstep] at *
      omega
    · have hlt : j - chunkStep * (j / chunkStep) < CHUNK_SIZE := by
        rw [hstep, hsz] at *
        omega
      rw [List.getElem?_take_of_lt hlt, List.getElem?_drop]
      congr 1
      rw [hstep] at *
      omega
  · intro k w w' h h'
    rw [chunkSlices, chunkAux_getElem? _ _ k (le_refl _)] at h
    rw [chunkSlices, chunkAux_getElem? _ _ (k + 1) (le_refl _)] at h'
    by_cases h1 : chunkStep * k < (pyWords text).length
    · by_cases h2 : chunkStep * (k + 1) < (pyWords text).length
      · rw [if_pos h1] at h
        rw [if_pos h2] at h'
        injection h with h
        injection h' with h'
        subst h h'
        constructor
        · rw [List.drop_take, List.drop_drop, List.take_take]
          have e1 : CHUNK_SIZE - chunkStep = CHUNK_OVERLAP := rfl
          have e2 : min CHUNK_OVERLAP CHUNK_SIZE = CHUNK_OVERLAP := rfl
          have e3 : chunkStep * k + chunkStep = chunkStep * (k + 1) := by ring
          rw [e1, e2, e3]
        · rw [List.length_drop, List.length_take, List.length_drop]
          rw [hstep, hsz, hov] at *
          omega
      · rw [if_neg h2] at h'
        cases h'
    · rw [if_neg h1] at h
      cases h
  · intro fuel hf
    apply List.ext_getElem?
    intro n
    rw [chunkAux_getElem? fuel (pyWords text) n hf, chunkSlices,
      chunkAux_getElem? (pyWords text).length (pyWords text) n (le_refl _)]

/-- Witness for C8 on the document `"a b c"`: the fuel bound is
reached, and the word at position 2 is covered by a chunk. -/
theorem claim_C8_witness :
    ((pyWords "a b c").length ≤ 5 ∧ chunkAux 5 (pyWords "a b c") = chunkSlices "a b c") ∧
    (∃ (k : Nat) (w : List String), (chunkSlices "a b c")[k]? = some w ∧
      chunkStep * k ≤ 2 ∧ w[2 - chunkStep * k]? = (pyWords "a b c")[2]?) :=
  ⟨⟨by decide, (claim_C8 "a b c").2.2.2.2 5 (by decide)⟩,
    (claim_C8 "a b c").2.2.1 2 (by decide)⟩

end Rag
